import Mathlib

/-!
Verification of the Model Resource Handler (`src/pages/api/models/index.ts`).

The handler is a Next.js API route dispatching on the HTTP verb, backed by a
Prisma database client, an S3 storage client, a session resolver, an
authorization helper and the formidable multipart parser.  Those collaborators
are external to the file (and mostly external to the repository), so the
embedding passes them in explicitly:

* the resolved session is a parameter (the source resolves it once per request
  via `getSession`);
* the database is an explicit state `DB` (lists of users and models), and the
  Prisma `findUnique` / `findMany` calls are translated to lookups on it;
* `hasRight`, the multipart-parse outcome, the per-file upload processing
  (`handlePOST` from ServerFileHandling) and the dynamic-field sort of Prisma
  are fields of an `Env` record: the handler only forwards to them;
* writes (S3 bulk delete, Prisma record delete, per-file upload processing)
  are recorded in an effect trace returned next to the response.

JavaScript truthiness of query values (`undefined`, `""` falsy; any array
truthy) is modelled explicitly, since the source guards on it.
-/

/-- A query-string value as Next.js delivers it: absent, a single string, or a
list of strings (repeated parameter). -/
inductive QueryVal where
  | absent
  | str (s : String)
  | arr (l : List String)
deriving DecidableEq, Repr

namespace QueryVal

/-- JavaScript truthiness of a query value: `undefined` and `""` are falsy,
every array (even empty) is truthy. -/
def truthy : QueryVal → Bool
  | absent => false
  | str s => s != ""
  | arr _ => true

/-- JavaScript `toString()` of a query value (arrays join with commas); only
used by the source on truthy values, `absent` maps to the string
`"undefined"` as JS interpolation would. -/
def toStrJS : QueryVal → String
  | absent => "undefined"
  | str s => s
  | arr l => String.intercalate "," l

/-- `x?.toString()`: `none` when absent, otherwise the JS string. -/
def toStrOpt : QueryVal → Option String
  | absent => none
  | v => some v.toStrJS

end QueryVal

/-- JavaScript truthiness of an optional string (`undefined`/`""` falsy). -/
def jsTruthyStr : Option String → Bool
  | none => false
  | some s => s != ""

/-- A stored `Model` record (Prisma entity): the fields the handler reads.
`thumbnail` and `modelUsdz` are nullable in the schema, `createdAt` is the
creation timestamp. -/
structure Model where
  id : String
  name : String
  category : String
  userId : String
  modelFile : String
  thumbnail : Option String
  modelUsdz : Option String
  createdAt : Nat
deriving DecidableEq, Repr

/-- A stored `User` record: the fields the handler reads. -/
structure User where
  id : String
  email : String
  role : String
deriving DecidableEq, Repr

/-- `ModelInfo`: the model spread together with the three derived URL fields
computed by `makeModelInfo`. -/
structure ModelInfo where
  model : Model
  modelSrc : String
  thumbnailSrc : String
  usdzSrc : String
deriving DecidableEq, Repr

/-- `OptionalModel`: the partial model draft built on the POST path. -/
structure OptionalModel where
  userId : Option String := none
  category : Option String := none
  name : Option String := none
deriving DecidableEq, Repr

/-- The authenticated session as the handler reads it: only
`session.user?.email` is ever consulted. -/
structure Session where
  userEmail : Option String
deriving DecidableEq, Repr

/-- Database state: the two Prisma tables the handler touches. -/
structure DB where
  users : List User
  models : List Model
deriving DecidableEq, Repr

/-- The action descriptor passed to `hasRight`. -/
structure AuthAction where
  theme : String
  method : String
deriving DecidableEq, Repr

/-- An uploaded file part; its payload is opaque to the handler, so a token
suffices. -/
abbrev UpFile := String

/-- `formidable.files.file`: `undefined`, a single file, or an array. -/
inductive MaybeArray (α : Type) where
  | undef
  | one (a : α)
  | many (l : List α)
deriving DecidableEq, Repr

/-- Modelled from the spec: `makeMaybeArrayToArray` (ServerFileHandling, not
under src/) normalizes the files field, which may be a single file or a list,
into a list of zero-or-more files. -/
def makeMaybeArrayToArray {α : Type} : MaybeArray α → List α
  | MaybeArray.undef => []
  | MaybeArray.one a => [a]
  | MaybeArray.many l => l

/-- Modelled from the spec: `updateModel` (ServerFileHandling, not under src/)
is the update helper that merges the supplied fields of the partial onto the
draft. -/
def updateModel (draft patch : OptionalModel) : OptionalModel :=
  { userId := patch.userId <|> draft.userId
    category := patch.category <|> draft.category
    name := patch.name <|> draft.name }

/-- Modelled from the spec: `Categories` (client Util, not under src/) is the
enumerated category set; the spec guarantees at least the default `"MISC"`
member. -/
def Categories : List String := ["MISC"]

/-- `formidable.Fields` as used by the handler: only the `form` field. -/
structure FormFields where
  form : Option String
deriving DecidableEq, Repr

/-- `formidable.Files` as used by the handler: only the `file` field. -/
structure FormFiles where
  file : MaybeArray UpFile
deriving DecidableEq, Repr

/-- The resolved value of `getFormidableFileFromReq`. -/
structure FormidableResult where
  fields : FormFields
  files : FormFiles
deriving DecidableEq, Repr

/-- A settled per-file outcome of `Promise.allSettled`: a fulfilled value or a
rejection reason. -/
inductive Settled where
  | fulfilled (value : String)
  | rejected (reason : String)
deriving DecidableEq, Repr

/-- The side effects the handler (or its per-file fan-out) triggers. -/
inductive Effect where
  | storageDelete (modelId : String)
  | dbDelete (modelId : String)
  | filePost (file : UpFile) (draft : OptionalModel)
deriving DecidableEq, Repr

/-- Response bodies the handler can produce. -/
inductive Body where
  | empty
  | text (s : String)
  | jsonList (l : List ModelInfo)
  | jsonData (data : List ModelInfo) (error : Option String)
  | jsonOk (ok : Bool) (message : String)
  | jsonResults (results : List Settled)
  | jsonError (error : String)
deriving DecidableEq, Repr

/-- An HTTP response: status code plus body. -/
structure Resp where
  status : Nat
  body : Body
deriving DecidableEq, Repr

/-- The parsed JSON object of the `form` field (`UploadForm` in the source);
the handler only hands it to `getModelFromForm`, so an opaque carrier
suffices. -/
structure UploadForm where
  obj : String
deriving DecidableEq, Repr

/-- The external collaborators of the handler, passed in explicitly:
the authorization helper, the outcome of multipart parsing (a function of
whether the privileged formidable options were selected), `JSON.parse` on the
form field (`none` models a throw on malformed JSON — the handler does not
catch it), `getModelFromForm` of ServerFileHandling, the per-file upload
processor `handlePOST` (its settled outcome), the Prisma dynamic-field sort
(field name, `orderBy` query value), whether `prismaClient.model.delete`
throws, and the asynchronous outcome of the fire-and-forget `deleteS3Files`
call (never awaited by the handler). -/
structure Env where
  hasRight : AuthAction → Option User → Option Model → Bool
  parse : Bool → Except Unit FormidableResult
  parseJSON : String → Option UploadForm
  getModelFromForm : UploadForm → OptionalModel
  handlePOST : UpFile → OptionalModel → Settled
  sortBy : String → QueryVal → List Model → List Model
  dbDeleteThrows : Bool
  s3Outcome : Bool

/-- The request: HTTP method and the query parameters the handler reads. -/
structure Req where
  method : Option String
  id : QueryVal
  uploader : QueryVal
  sort : QueryVal
  category : QueryVal
  filterByName : QueryVal
  orderBy : QueryVal
deriving DecidableEq, Repr

/-- `const allowedMethod = ["GET", "POST", "DELETE"]`. -/
def allowedMethod : List String := ["GET", "POST", "DELETE"]

/-- `makeModelInfo`: spread the model and derive the three URL fields from the
`/getResource/models/{id}/{filename}` template; the falsy (absent or empty)
thumbnail and USDZ filenames yield `""`. -/
def makeModelInfo (model : Model) : ModelInfo :=
  let thumbnailSrc :=
    if jsTruthyStr model.thumbnail then
      "/getResource/models/" ++ model.id ++ "/" ++ model.thumbnail.getD ""
    else ""
  let usdzSrc :=
    if jsTruthyStr model.modelUsdz then
      "/getResource/models/" ++ model.id ++ "/" ++ model.modelUsdz.getD ""
    else ""
  { model := model
    modelSrc := "/getResource/models/" ++ model.id ++ "/" ++ model.modelFile
    thumbnailSrc := thumbnailSrc
    usdzSrc := usdzSrc }

/-- `makeModelInfos`: elementwise shaping of a list. -/
def makeModelInfos (models : List Model) : List ModelInfo :=
  models.map (fun model => makeModelInfo model)

/-- `prismaClient.user.findUnique({where: {email}})`; per the source comment,
an undefined email searches nothing. -/
def findUserByEmail (db : DB) : Option String → Option User
  | none => none
  | some e => db.users.find? (fun u => u.email == e)

/-- the Prisma case-sensitive `contains` string filter, as plain substring
search. -/
def strContainsSub (s pat : String) : Bool :=
  s.toList.tails.any (fun t => pat.toList.isPrefixOf t)

/-- The `where` filter of the sort/filter branch: `name contains filterByName`
(no constraint when `filterByName` is absent), plus an equality on the
uppercased category when `category` is truthy and a member of `Categories`. -/
def sortWhere (req : Req) (m : Model) : Bool :=
  let nameOk :=
    match req.filterByName.toStrOpt with
    | none => true
    | some sub => strContainsSub m.name sub
  if req.category.truthy && Categories.contains req.category.toStrJS then
    nameOk && m.category == req.category.toStrJS.toUpper
  else nameOk

/-- The model list produced by `prismaClient.model.findMany(options)` in the
sort/filter branch: filter by `sortWhere`, then the dynamic
`{[sort]: orderBy}` ordering delegated to the Prisma collaborator. -/
def sortOptionsList (env : Env) (db : DB) (req : Req) : List Model :=
  env.sortBy req.sort.toStrJS req.orderBy (db.models.filter (sortWhere req))

/-- The four-variant "no matches" message of the sort/filter branch. -/
def noMatchMessage (req : Req) : Option String :=
  if req.filterByName.truthy then
    if req.category.truthy then
      some ("We couldn\x27t find any matches for \"" ++ req.filterByName.toStrJS
        ++ "\" in " ++ req.category.toStrJS)
    else
      some ("We couldn\x27t find any matches for \"" ++ req.filterByName.toStrJS
        ++ "\"")
  else if req.category.truthy then
    some ("We couldn\x27t find any matches in \"" ++ req.category.toStrJS ++ "\"")
  else none

/-- Insertion of one model into a list sorted by `createdAt` descending. -/
def insertByCreatedAtDesc (m : Model) : List Model → List Model
  | [] => [m]
  | x :: xs =>
    if x.createdAt ≤ m.createdAt then m :: x :: xs
    else x :: insertByCreatedAtDesc m xs

/-- `findMany({orderBy: {createdAt: "desc"}})`: the table sorted by creation
time descending. -/
def sortByCreatedAtDesc : List Model → List Model
  | [] => []
  | x :: xs => insertByCreatedAtDesc x (sortByCreatedAtDesc xs)

/-- The uploader id list of the by-uploader branch: a single string is wrapped
into a singleton, an array is taken as is (`absent` is unreachable there since
it is falsy). -/
def uploaderList : QueryVal → List String
  | QueryVal.str s => [s]
  | QueryVal.arr l => l
  | QueryVal.absent => []

/-- The GET path: by id, by uploader, by sort/filter, or the default listing,
in that priority order, guarded by JS truthiness of the query values. -/
def handleGET (env : Env) (db : DB) (req : Req) : Resp × List Effect :=
  if req.id.truthy then
    match req.id with
    | QueryVal.str s =>
      match db.models.find? (fun m => m.id == s) with
      | none => ({ status := 404, body := Body.empty }, [])
      | some model => ({ status := 200, body := Body.jsonList [makeModelInfo model] }, [])
    | _ =>
      -- `req.query.id as string` is actually an array here: Prisma rejects the
      -- query, the rejection is unhandled, and the framework answers 500.
      ({ status := 500, body := Body.empty }, [])
  else if req.uploader.truthy then
    let found := db.models.filter (fun m => (uploaderList req.uploader).contains m.userId)
    ({ status := 200, body := Body.jsonList (makeModelInfos found) }, [])
  else if req.sort.truthy then
    let modelList := sortOptionsList env db req
    if modelList.length == 0 then
      -- the 404 envelope carries the (empty) raw list as `data`
      ({ status := 404, body := Body.jsonData [] (noMatchMessage req) }, [])
    else
      ({ status := 200, body := Body.jsonData (makeModelInfos modelList) none }, [])
  else
    ({ status := 200, body := Body.jsonList (makeModelInfos (sortByCreatedAtDesc db.models)) }, [])

/-- The model draft built on the POST path: stamp the uploader id, then, when
a `form` field is truthy, `JSON.parse` it (`none` when the parse throws on
malformed JSON) and merge the result of `getModelFromForm` via the update
helper, else default the category to `"MISC"`. -/
def postDraft (env : Env) (user : User) (fr : FormidableResult) : Option OptionalModel :=
  let model0 : OptionalModel := { userId := some user.id }
  if jsTruthyStr fr.fields.form then
    match env.parseJSON (fr.fields.form.getD "") with
    | none => none
    | some form => some (updateModel model0 (env.getModelFromForm form))
  else
    some { model0 with category := some "MISC" }

/-- The POST path: session guard, user lookup, authorization, multipart parse
(with privileged formidable options for ADMIN/DEVELOPER), draft build (a
`JSON.parse` throw on a malformed form field escapes the handler as a
framework 500), and the `Promise.allSettled` fan-out over the normalized file
list. -/
def handlePOSTreq (env : Env) (db : DB) (session : Option Session) (_req : Req) :
    Resp × List Effect :=
  match session with
  | none => ({ status := 401, body := Body.text "Login first" }, [])
  | some s =>
    match findUserByEmail db s.userEmail with
    | none => ({ status := 401, body := Body.empty }, [])
    | some user =>
      if !(env.hasRight { theme := "model", method := "create" } (some user) none) then
        ({ status := 403, body := Body.jsonOk false "로그인이 필요합니다." }, [])
      else
        let isAdminOrDev := user.role == "ADMIN" || user.role == "DEVELOPER"
        match env.parse isAdminOrDev with
        | Except.error _ =>
          -- `res.json` without `res.status`: HTTP 200 despite the failure body
          ({ status := 200,
             body := Body.jsonOk false "Failed to parse your request. Check your model size." }, [])
        | Except.ok fr =>
          match postDraft env user fr with
          | none =>
            -- `JSON.parse` throws on the malformed form field; the handler
            -- does not catch it and the framework answers 500 with no
            -- handler response
            ({ status := 500, body := Body.empty }, [])
          | some model =>
            let files := makeMaybeArrayToArray fr.files.file
            let results := files.map (fun file => env.handlePOST file model)
            ({ status := 200, body := Body.jsonResults results },
             files.map (fun file => Effect.filePost file model))

/-- `req.query.id` on the DELETE path: the array form takes its first
element. -/
def deleteModelId (req : Req) : Option String :=
  match req.id with
  | QueryVal.arr l => l.head?
  | QueryVal.str s => some s
  | QueryVal.absent => none

/-- The DELETE path: resolve the user by session email, resolve the model id
(400 when falsy), fetch the target, authorize, then fire-and-forget the S3
delete and await the database delete inside the try/catch. -/
def handleDELETEreq (env : Env) (db : DB) (session : Option Session) (req : Req) :
    Resp × List Effect :=
  let user := findUserByEmail db (session.bind Session.userEmail)
  let modelId := deleteModelId req
  if !(jsTruthyStr modelId) then
    ({ status := 400, body := Body.jsonError "model id query not found" }, [])
  else
    let mid := modelId.getD ""
    let model := db.models.find? (fun m => m.id == mid)
    if !(env.hasRight { theme := "model", method := "delete" } user model) then
      ({ status := 403, body := Body.empty }, [])
    else
      -- `deleteS3Files(modelId)` is invoked but not awaited: its asynchronous
      -- outcome (`env.s3Outcome`) is never consulted.  Only a rejection of the
      -- awaited `prismaClient.model.delete` reaches the catch block.
      if env.dbDeleteThrows then
        ({ status := 500, body := Body.jsonOk false "Failed while deleting." },
         [Effect.storageDelete mid, Effect.dbDelete mid])
      else
        ({ status := 200, body := Body.jsonOk true "delete success!" },
         [Effect.storageDelete mid, Effect.dbDelete mid])

/-- The handler: resolve the session once, reject methods outside
`allowedMethod` with 405, then dispatch on the verb. -/
def handler (env : Env) (db : DB) (session : Option Session) (req : Req) :
    Resp × List Effect :=
  if !(allowedMethod.contains (req.method.getD "")) then
    ({ status := 405, body := Body.empty }, [])
  else if req.method == some "GET" then
    handleGET env db req
  else if req.method == some "POST" then
    handlePOSTreq env db session req
  else if req.method == some "DELETE" then
    handleDELETEreq env db session req
  else
    -- unreachable: the method is in `allowedMethod` here; the source sends no
    -- response on this path
    ({ status := 0, body := Body.empty }, [])

/-! ### Concrete fixtures used by the witnesses -/

/-- A request with no method and every query parameter absent. -/
def req0 : Req :=
  { method := none, id := QueryVal.absent, uploader := QueryVal.absent,
    sort := QueryVal.absent, category := QueryVal.absent,
    filterByName := QueryVal.absent, orderBy := QueryVal.absent }

/-- A stored model with a thumbnail and no USDZ variant. -/
def mA : Model :=
  { id := "42", name := "alpha", category := "MISC", userId := "A",
    modelFile := "a.glb", thumbnail := some "t.png", modelUsdz := none,
    createdAt := 5 }

/-- A stored model with no thumbnail and a USDZ variant. -/
def mB : Model :=
  { id := "7", name := "beta", category := "MISC", userId := "B",
    modelFile := "b.glb", thumbnail := none, modelUsdz := some "b.usdz",
    createdAt := 9 }

/-- A one-user, two-model database. -/
def dbW : DB :=
  { users := [{ id := "U1", email := "u@x.com", role := "USER" }],
    models := [mA, mB] }

/-- A permissive environment: every right granted, parsing succeeds with two
files, the first file processes successfully and the second one fails. -/
def envW : Env :=
  { hasRight := fun _ _ _ => true
    parse := fun _ => Except.ok
      { fields := { form := none }, files := { file := MaybeArray.many ["f1", "f2"] } }
    parseJSON := fun raw => some { obj := raw }
    getModelFromForm := fun _ => {}
    handlePOST := fun f _ => if f == "f1" then Settled.fulfilled "ok1" else Settled.rejected "bad"
    sortBy := fun _ _ l => l
    dbDeleteThrows := false
    s3Outcome := true }



/-- C8: GET with a truthy string id fetches exactly that record: absent record
gives a 404 empty body, an existing record gives a 200 single-element shaped
list. -/
theorem handler_get_by_id (env : Env) (db : DB) (session : Option Session) (req : Req)
    (s : String) (hm : req.method = some "GET") (hid : req.id = QueryVal.str s)
    (hs : s ≠ "") :
    (db.models.find? (fun m => m.id == s) = none →
      handler env db session req = ({ status := 404, body := Body.empty }, [])) ∧
    (∀ m, db.models.find? (fun m2 => m2.id == s) = some m →
      handler env db session req =
        ({ status := 200, body := Body.jsonList [makeModelInfo m] }, [])) := by
  constructor
  · intro hfind
    simp [handler, hm, allowedMethod, handleGET, hid, QueryVal.truthy, bne_iff_ne, hs, hfind]
  · intro m hfind
    simp [handler, hm, allowedMethod, handleGET, hid, QueryVal.truthy, bne_iff_ne, hs, hfind]

/-- Witness for C8 at a concrete database and id. -/
theorem handler_get_by_id_witness :
    handler envW dbW none { req0 with method := some "GET", id := QueryVal.str "42" } =
      ({ status := 200, body := Body.jsonList [makeModelInfo mA] }, []) :=
  (handler_get_by_id envW dbW none _ "42" rfl rfl (by decide)).2 mA (by decide)

/-- C10: on the GET path the response and effects do not depend on the
session: any two sessions produce the same handler output. -/
theorem handler_get_session_independent (env : Env) (db : DB) (req : Req)
    (s1 s2 : Option Session) (hm : req.method = some "GET") :
    handler env db s1 req = handler env db s2 req := by
  simp [handler, hm]

/-- Witness for C10: a logged-in and an anonymous GET coincide. -/
theorem handler_get_session_independent_witness :
    handler envW dbW (some { userEmail := some "u@x.com" })
        { req0 with method := some "GET" } =
      handler envW dbW none { req0 with method := some "GET" } :=
  handler_get_session_independent envW dbW _ _ none rfl

/-- C4: the response shaper is a pure function of the stored model: `modelSrc`
always follows the `/getResource/models/\x7bid\x7d/\x7bfilename\x7d` template;
`thumbnailSrc` and `usdzSrc` follow it when the corresponding filename is
present (a nonempty string) and are `""` otherwise; lists are shaped
elementwise by the same function. -/
theorem makeModelInfo_shapes (m : Model) (l : List Model) :
    (makeModelInfo m).modelSrc = "/getResource/models/" ++ m.id ++ "/" ++ m.modelFile ∧
    (∀ t, m.thumbnail = some t → t ≠ "" →
      (makeModelInfo m).thumbnailSrc = "/getResource/models/" ++ m.id ++ "/" ++ t) ∧
    (m.thumbnail = none ∨ m.thumbnail = some "" → (makeModelInfo m).thumbnailSrc = "") ∧
    (∀ u, m.modelUsdz = some u → u ≠ "" →
      (makeModelInfo m).usdzSrc = "/getResource/models/" ++ m.id ++ "/" ++ u) ∧
    (m.modelUsdz = none ∨ m.modelUsdz = some "" → (makeModelInfo m).usdzSrc = "") ∧
    makeModelInfos l = l.map makeModelInfo := by
  refine ⟨rfl, ?_, ?_, ?_, ?_, rfl⟩
  · intro t ht hne
    simp [makeModelInfo, ht, jsTruthyStr, bne_iff_ne, hne]
  · rintro (ht | ht) <;> simp [makeModelInfo, ht, jsTruthyStr]
  · intro u hu hne
    simp [makeModelInfo, hu, jsTruthyStr, bne_iff_ne, hne]
  · rintro (hu | hu) <;> simp [makeModelInfo, hu, jsTruthyStr]

/-- Witness for C4: shaping of the two fixture models. -/
theorem makeModelInfo_shapes_witness :
    (makeModelInfo mA).modelSrc = "/getResource/models/42/a.glb" ∧
    (makeModelInfo mA).thumbnailSrc = "/getResource/models/42/t.png" ∧
    (makeModelInfo mB).thumbnailSrc = "" ∧
    (makeModelInfo mB).usdzSrc = "/getResource/models/7/b.usdz" ∧
    (makeModelInfo mA).usdzSrc = "" ∧
    makeModelInfos [mA, mB] = [makeModelInfo mA, makeModelInfo mB] :=
  ⟨(makeModelInfo_shapes mA []).1,
   (makeModelInfo_shapes mA []).2.1 "t.png" rfl (by decide),
   (makeModelInfo_shapes mB []).2.2.1 (Or.inl rfl),
   (makeModelInfo_shapes mB []).2.2.2.1 "b.usdz" rfl (by decide),
   (makeModelInfo_shapes mA []).2.2.2.2.1 (Or.inl rfl),
   (makeModelInfo_shapes mA [mA, mB]).2.2.2.2.2⟩

/-- C9: GET without a truthy id but with a truthy uploader answers 200 with
the shaped list of exactly the records whose uploader id is among the supplied
values (the union across the supplied uploader ids). -/
theorem handler_get_by_uploader (env : Env) (db : DB) (session : Option Session)
    (req : Req) (hm : req.method = some "GET") (hid : req.id.truthy = false)
    (hup : req.uploader.truthy = true) :
    handler env db session req =
      ({ status := 200,
         body := Body.jsonList (makeModelInfos (db.models.filter
           (fun m => (uploaderList req.uploader).contains m.userId))) }, []) := by
  simp [handler, hm, allowedMethod, handleGET, hid, hup]

/-- Witness for C9: `uploader=[A,B]` returns the union of the records of the
two supplied uploaders. -/
theorem handler_get_by_uploader_witness :
    handler envW dbW none
        { req0 with method := some "GET", uploader := QueryVal.arr ["A", "B"] } =
      ({ status := 200, body := Body.jsonList [makeModelInfo mA, makeModelInfo mB] }, []) :=
  handler_get_by_uploader envW dbW none _ rfl rfl rfl

/-- C7: the POST guards run in order — no session gives 401 with a plain-text
message, a session whose email matches no user gives 401 with an empty body,
a found user failing the create authorization gives 403 with a JSON failure
body — and in all three cases the effect trace is empty (no database write,
no file processing). -/
theorem handler_post_guards (env : Env) (db : DB) (session : Option Session)
    (req : Req) (hm : req.method = some "POST") :
    (session = none →
      handler env db session req = ({ status := 401, body := Body.text "Login first" }, [])) ∧
    (∀ s, session = some s → findUserByEmail db s.userEmail = none →
      handler env db session req = ({ status := 401, body := Body.empty }, [])) ∧
    (∀ s u, session = some s → findUserByEmail db s.userEmail = some u →
      env.hasRight { theme := "model", method := "create" } (some u) none = false →
      handler env db session req =
        ({ status := 403, body := Body.jsonOk false "로그인이 필요합니다." }, [])) := by
  refine ⟨?_, ?_, ?_⟩
  · intro hs
    simp [handler, hm, allowedMethod, handlePOSTreq, hs]
  · intro s hs hu
    simp [handler, hm, allowedMethod, handlePOSTreq, hs, hu]
  · intro s u hs hu hr
    simp [handler, hm, allowedMethod, handlePOSTreq, hs, hu, hr]

/-- Witness for C7: the anonymous-POST guard at a concrete request. -/
theorem handler_post_guards_witness :
    handler envW dbW none { req0 with method := some "POST" } =
      ({ status := 401, body := Body.text "Login first" }, []) :=
  (handler_post_guards envW dbW none _ rfl).1 rfl

/-- C6: when multipart parsing fails on a POST that passed all guards, the
handler answers HTTP 200 (not an error status) with the `ok:false` failure
body, and the effect trace is empty: no file processing, no record creation. -/
theorem handler_post_parse_failure (env : Env) (db : DB) (session : Option Session)
    (req : Req) (s : Session) (u : User) (hm : req.method = some "POST")
    (hs : session = some s) (hu : findUserByEmail db s.userEmail = some u)
    (hr : env.hasRight { theme := "model", method := "create" } (some u) none = true)
    (hp : env.parse (u.role == "ADMIN" || u.role == "DEVELOPER") = Except.error ()) :
    handler env db session req =
      ({ status := 200,
         body := Body.jsonOk false "Failed to parse your request. Check your model size." },
       []) := by
  simp [handler, hm, allowedMethod, handlePOSTreq, hs, hu, hr, hp]

/-- A permissive environment whose multipart parse fails. -/
def envParseFail : Env := { envW with parse := fun _ => Except.error () }

/-- Witness for C6 at a concrete failing parse. -/
theorem handler_post_parse_failure_witness :
    handler envParseFail dbW (some { userEmail := some "u@x.com" })
        { req0 with method := some "POST" } =
      ({ status := 200,
         body := Body.jsonOk false "Failed to parse your request. Check your model size." },
       []) :=
  handler_post_parse_failure envParseFail dbW _ _
    { userEmail := some "u@x.com" } { id := "U1", email := "u@x.com", role := "USER" }
    rfl rfl rfl rfl rfl

/-- A permissive environment whose multipart parse succeeds with one file and
a malformed `form` field, on which `JSON.parse` throws. -/
def envBadForm : Env :=
  { envW with
    parse := fun _ => Except.ok
      { fields := { form := some "not json" }, files := { file := MaybeArray.many ["f1"] } }
    parseJSON := fun _ => none }

/-- Counterexample to C1 as stated: a POST that passes the session, user and
authorization checks and whose multipart body parses successfully, yet whose
`form` field is malformed JSON — `JSON.parse` at index.ts:183 throws, the
handler sends no response and the framework answers 500, not the claimed 200
with one settled outcome per file. -/
theorem handler_post_fanout_counterexample :
    handler envBadForm dbW (some { userEmail := some "u@x.com" })
        { req0 with method := some "POST" } =
      ({ status := 500, body := Body.empty }, []) := by
  decide

/-- C1 (amended): a POST that passes the guards, parses successfully, and
whose draft build succeeds (the `form` field, when truthy, parses as JSON)
answers 200 with exactly one settled outcome per uploaded file, in submission
order — the outcome of processing that file alone — and the effect trace
shows every file processed (no early abort, no rollback), whatever the
per-file outcomes are. -/
theorem handler_post_fanout (env : Env) (db : DB) (session : Option Session)
    (req : Req) (s : Session) (u : User) (fr : FormidableResult)
    (model : OptionalModel)
    (hm : req.method = some "POST") (hs : session = some s)
    (hu : findUserByEmail db s.userEmail = some u)
    (hr : env.hasRight { theme := "model", method := "create" } (some u) none = true)
    (hp : env.parse (u.role == "ADMIN" || u.role == "DEVELOPER") = Except.ok fr)
    (hd : postDraft env u fr = some model) :
    handler env db session req =
      ({ status := 200,
         body := Body.jsonResults ((makeMaybeArrayToArray fr.files.file).map
           (fun file => env.handlePOST file model)) },
       (makeMaybeArrayToArray fr.files.file).map
         (fun file => Effect.filePost file model)) ∧
    ((makeMaybeArrayToArray fr.files.file).map
      (fun file => env.handlePOST file model)).length =
      (makeMaybeArrayToArray fr.files.file).length := by
  refine ⟨?_, List.length_map _ _⟩
  simp [handler, hm, allowedMethod, handlePOSTreq, hs, hu, hr, hp, hd]

/-- Witness for C1 (amended): two files, the first fulfilled and the second
rejected, yield a two-entry `results` array in submission order with
status 200. -/
theorem handler_post_fanout_witness :
    handler envW dbW (some { userEmail := some "u@x.com" })
        { req0 with method := some "POST" } =
      ({ status := 200,
         body := Body.jsonResults [Settled.fulfilled "ok1", Settled.rejected "bad"] },
       [Effect.filePost "f1" { userId := some "U1", category := some "MISC" },
        Effect.filePost "f2" { userId := some "U1", category := some "MISC" }]) :=
  (handler_post_fanout envW dbW _ _ { userEmail := some "u@x.com" }
    { id := "U1", email := "u@x.com", role := "USER" }
    { fields := { form := none }, files := { file := MaybeArray.many ["f1", "f2"] } }
    { userId := some "U1", category := some "MISC" }
    rfl rfl rfl rfl rfl rfl).1

/-- C5: a GET on the sort/filter branch whose database query comes back empty
answers 404 with a `\x7bdata, error\x7d` body whose message has four variants:
quoting the filter value and naming the category when both are truthy, quoting
the filter value alone, naming the category alone, or no message at all. -/
theorem handler_get_sort_empty (env : Env) (db : DB) (session : Option Session)
    (req : Req) (hm : req.method = some "GET") (hid : req.id.truthy = false)
    (hup : req.uploader.truthy = false) (hsort : req.sort.truthy = true)
    (hempty : sortOptionsList env db req = []) :
    handler env db session req =
      ({ status := 404,
         body := Body.jsonData []
           (if req.filterByName.truthy then
              if req.category.truthy then
                some ("We couldn\x27t find any matches for \"" ++ req.filterByName.toStrJS
                  ++ "\" in " ++ req.category.toStrJS)
              else
                some ("We couldn\x27t find any matches for \"" ++ req.filterByName.toStrJS
                  ++ "\"")
            else if req.category.truthy then
              some ("We couldn\x27t find any matches in \"" ++ req.category.toStrJS ++ "\"")
            else none) }, []) := by
  simp only [handler, hm, allowedMethod, handleGET, hid, hup, hsort, hempty,
    noMatchMessage, Option.getD_some, Bool.not_eq_true]
  norm_num

/-- A GET request on the sort branch filtering by the name `"zzz"`. -/
def reqSortZzz : Req :=
  { req0 with
    method := some "GET"
    sort := QueryVal.str "name"
    orderBy := QueryVal.str "asc"
    filterByName := QueryVal.str "zzz" }

/-- Witness for C5: no fixture model name contains `"zzz"`, so the 404 message
quotes `"zzz"` (name-only variant). -/
theorem handler_get_sort_empty_witness :
    handler envW dbW none reqSortZzz =
      ({ status := 404,
         body := Body.jsonData []
           (some "We couldn\x27t find any matches for \"zzz\"") }, []) :=
  handler_get_sort_empty envW dbW none reqSortZzz rfl rfl rfl rfl (by decide)

/-- C2: an authorized DELETE with a truthy string id records the storage
delete followed by the database delete; a throwing database delete yields 500
with the JSON failure body, otherwise 200 with the JSON success body; and the
response never depends on the asynchronous outcome of the never-awaited
storage delete. -/
theorem handler_delete_authorized (env : Env) (db : DB) (session : Option Session)
    (req : Req) (mid : String) (hm : req.method = some "DELETE")
    (hid : req.id = QueryVal.str mid) (hne : mid ≠ "")
    (hr : env.hasRight { theme := "model", method := "delete" }
      (findUserByEmail db (session.bind Session.userEmail))
      (db.models.find? (fun m => m.id == mid)) = true) :
    (handler env db session req).2 = [Effect.storageDelete mid, Effect.dbDelete mid] ∧
    (env.dbDeleteThrows = true →
      (handler env db session req).1 =
        { status := 500, body := Body.jsonOk false "Failed while deleting." }) ∧
    (env.dbDeleteThrows = false →
      (handler env db session req).1 =
        { status := 200, body := Body.jsonOk true "delete success!" }) ∧
    (∀ b, handler { env with s3Outcome := b } db session req =
      handler env db session req) := by
  have hbranch : ∀ e : Env, e.hasRight { theme := "model", method := "delete" }
      (findUserByEmail db (session.bind Session.userEmail))
      (db.models.find? (fun m => m.id == mid)) = true →
      handler e db session req =
        (if e.dbDeleteThrows then
          ({ status := 500, body := Body.jsonOk false "Failed while deleting." },
           [Effect.storageDelete mid, Effect.dbDelete mid])
        else
          ({ status := 200, body := Body.jsonOk true "delete success!" },
           [Effect.storageDelete mid, Effect.dbDelete mid])) := by
    intro e he
    simp [handler, hm, allowedMethod, handleDELETEreq, hid, deleteModelId,
      jsTruthyStr, bne_iff_ne, hne, he]
  refine ⟨?_, ?_, ?_, ?_⟩
  · rw [hbranch env hr]
    cases h : env.dbDeleteThrows <;> simp [h]
  · intro h
    rw [hbranch env hr]
    simp [h]
  · intro h
    rw [hbranch env hr]
    simp [h]
  · intro b
    rw [hbranch env hr, hbranch { env with s3Outcome := b } hr]

/-- Witness for C2: a successful authorized delete of the fixture model. -/
theorem handler_delete_authorized_witness :
    (handler envW dbW none { req0 with method := some "DELETE", id := QueryVal.str "42" }).2 =
      [Effect.storageDelete "42", Effect.dbDelete "42"] ∧
    (handler envW dbW none { req0 with method := some "DELETE", id := QueryVal.str "42" }).1 =
      { status := 200, body := Body.jsonOk true "delete success!" } :=
  ⟨(handler_delete_authorized envW dbW none _ "42" rfl rfl (by decide) rfl).1,
   (handler_delete_authorized envW dbW none _ "42" rfl rfl (by decide) rfl).2.2.1 rfl⟩

/-- C3: a DELETE denied by the authorization gate answers 403 with an empty
body and an empty effect trace: neither the storage delete nor the database
delete is invoked. -/
theorem handler_delete_denied (env : Env) (db : DB) (session : Option Session)
    (req : Req) (mid : String) (hm : req.method = some "DELETE")
    (hid : req.id = QueryVal.str mid) (hne : mid ≠ "")
    (hr : env.hasRight { theme := "model", method := "delete" }
      (findUserByEmail db (session.bind Session.userEmail))
      (db.models.find? (fun m => m.id == mid)) = false) :
    handler env db session req = ({ status := 403, body := Body.empty }, []) := by
  simp [handler, hm, allowedMethod, handleDELETEreq, hid, deleteModelId,
    jsTruthyStr, bne_iff_ne, hne, hr]

/-- An environment denying every right. -/
def envDeny : Env := { envW with hasRight := fun _ _ _ => false }

/-- Witness for C3: an anonymous DELETE of the fixture model is rejected with
403 and no effects. -/
theorem handler_delete_denied_witness :
    handler envDeny dbW none { req0 with method := some "DELETE", id := QueryVal.str "42" } =
      ({ status := 403, body := Body.empty }, []) :=
  handler_delete_denied envDeny dbW none _ "42" rfl rfl (by decide) rfl
